import Mathlib

/-!
Verification of the whisper-server job pipeline.

The development shallowly embeds the two source files that the claims are
about: `worker.py` (the Celery task `transcribe_audio` together with
`convert_audio`) and `main.py` (the FastAPI endpoints
`transcribe_audio_endpoint` and `get_job_status`).

External effects are supplied by an explicit environment: the filesystem is
a predicate on path strings, the codec and the transcription engine are
oracles, and deletion failures are an oracle as well (the source wraps every
`unlink` in a try/except, so a failing deletion is an anticipated event).
The worker run returns the outcome (the returned dict or the raised
exception message), the final filesystem, the job-status trace produced by
the explicit Celery state updates, and the lists of attempted deletions and
codec invocations.
-/

/-- Character class of Python `str.strip` with no argument (ASCII part). -/
def isPySpace (c : Char) : Bool :=
  c == ' ' || c == '\t' || c == '\n' || c == '\r' || c == '\x0b' || c == '\x0c'

/-- Python `str.strip()`: drop leading and trailing whitespace. -/
def pyStrip (s : String) : String :=
  String.mk (((s.data.dropWhile isPySpace).reverse.dropWhile isPySpace).reverse)

/-- Python `str.lower()` (ASCII letters). -/
def pyLower (s : String) : String :=
  String.mk (s.data.map Char.toLower)

/-- Characters of the final path component (after the last slash). -/
def lastComponent (p : String) : List Char :=
  (p.data.reverse.takeWhile (fun c => c != '/')).reverse

/-- Python `pathlib.Path(p).suffix`: the extension of the final component,
including the dot; empty when the name has no dot, starts with its only dot,
or ends with the dot. -/
def pySuffix (p : String) : String :=
  let name := lastComponent p
  let pre := name.reverse.takeWhile (fun c => c != '.')
  if pre.length + 1 < name.length && 0 < pre.length then
    String.mk ('.' :: pre.reverse)
  else ""

/-- Output of the transcription engine (`model.transcribe`), spelled out as
the fields the worker reads. Numeric metadata (duration, language
probability) is passed through unchanged by the worker, so it is modelled
with integers. -/
structure TranscribeOut where
  segments : List String
  language : String
  duration : Int
  language_probability : Int
deriving DecidableEq, Repr

/-- The dict returned by `transcribe_audio` on success (worker.py 111-117). -/
structure JobResult where
  status : String
  text : String
  language : String
  duration : Int
  language_probability : Int
deriving DecidableEq, Repr

/-- One ffmpeg invocation made by `convert_audio` (worker.py 146-151),
with the audio parameters it passes. -/
structure ConvCall where
  input : String
  output : String
  acodec : String
  ac : Nat
  ar : Nat
deriving DecidableEq, Repr

/-- `convert_audio` (worker.py 137-154) always invokes ffmpeg with
16-bit PCM, mono, 16 kHz; whether the invocation succeeds is decided by
the environment. -/
def convert_audio (input_path output_path : String) : ConvCall :=
  { input := input_path, output := output_path,
    acodec := "pcm_s16le", ac := 1, ar := 16000 }

/-- Job status as observed through the Celery task state: PENDING is
Queued, the PROGRESS updates are Processing, SUCCESS is Completed and
FAILURE is Failed. -/
inductive JobStatus
  | Queued
  | Processing
  | Completed
  | Failed
deriving DecidableEq, Repr

/-- Environment of one worker run: the initial filesystem, the codec and
engine oracles, the deletion-failure oracle, and the fresh path handed out
by `tempfile.mktemp`. -/
structure Env where
  fileExists : String → Bool
  convertOk : Bool
  convFailLeavesFile : Bool
  transcribe : String → Except String TranscribeOut
  unlinkFails : String → Bool
  tempName : String

/-- Everything observable about one run of the `transcribe_audio` task:
the returned dict or raised message, the final filesystem, the job-status
trace, the paths on which `unlink` was invoked (in order), and the codec
invocations. -/
structure RunOut where
  outcome : Except String JobResult
  fs : String → Bool
  trace : List JobStatus
  unlinkCalls : List String
  convCalls : List ConvCall

/-- Point update of the filesystem. -/
def setFile (fs : String → Bool) (p : String) (b : Bool) : String → Bool :=
  fun q => if q = p then b else fs q

/-- Filesystem after one `unlink` attempt on `q`: the file is removed
unless the attempt fails or the file was already absent (in Python either
raises; every call site catches the exception). -/
def afterUnlink (env : Env) (fs : String → Bool) (q : String) : String → Bool :=
  if env.unlinkFails q || !(fs q) then fs else setFile fs q false

/-- worker.py 54-55: whether the extension (lower-cased) forces a
conversion. -/
def needs_conversion (p : String) : Bool :=
  !(pyLower (pySuffix p) == ".wav" || pyLower (pySuffix p) == ".flac")

/-- Filesystem after the finally block of worker.py 83-90: the converted
file is unlinked when one was made and it exists. -/
def tempCleanupFs (env : Env) (fs0 : String → Bool) (tempMade : Bool) :
    String → Bool :=
  if tempMade && fs0 env.tempName then afterUnlink env fs0 env.tempName else fs0

/-- The deletion attempts of the finally block (worker.py 85-90): one
attempt on the converted file when one was made and it exists. -/
def tempCleanupCalls (env : Env) (fs0 : String → Bool) (tempMade : Bool) :
    List String :=
  if tempMade && fs0 env.tempName then [env.tempName] else []

/-- The tail of the task shared by all branches that reach the engine
(worker.py 74-134): transcribe `working`; in the finally block delete the
converted file when one was made and exists (85-90); on engine success
join and strip the segments, delete the input unguarded (104-109) and
return the dict (111-117); on engine failure run the except branch
(119-134), deleting the input only if it still exists, and re-raise. -/
def runTranscribe (env : Env) (orig working : String) (fs0 : String → Bool)
    (tr : List JobStatus) (cc : List ConvCall) (tempMade : Bool) : RunOut :=
  match env.transcribe working with
  | .error e =>
      { outcome := .error ("Transcription failed: " ++ e)
        fs := afterUnlink env (tempCleanupFs env fs0 tempMade) orig
        trace := tr ++ [JobStatus.Failed]
        unlinkCalls := tempCleanupCalls env fs0 tempMade ++
          (if tempCleanupFs env fs0 tempMade orig then [orig] else [])
        convCalls := cc }
  | .ok out =>
      { outcome := .ok
          { status := "completed"
            text := pyStrip (String.join out.segments)
            language := out.language
            duration := out.duration
            language_probability := out.language_probability }
        fs := afterUnlink env (tempCleanupFs env fs0 tempMade) orig
        trace := tr ++ [JobStatus.Completed]
        unlinkCalls := tempCleanupCalls env fs0 tempMade ++ [orig]
        convCalls := cc }

/-- The Celery task `transcribe_audio` (worker.py 23-134). A missing input
raises FileNotFoundError before any state update; the except branch then
finds the file absent, deletes nothing, marks FAILURE and re-raises
(43-46, 119-134). Otherwise a PROGRESS update is emitted, the extension
decides conversion (53-58); in the conversion branch a second PROGRESS
update is emitted and the codec is invoked on the fresh temp path, falling
back to the original file when the codec fails (60-72); a failed
conversion may or may not leave a partial output file behind. -/
def transcribe_audio (env : Env) (p : String) : RunOut :=
  if env.fileExists p then
    if needs_conversion p then
      if env.convertOk then
        runTranscribe env p env.tempName (setFile env.fileExists env.tempName true)
          [JobStatus.Queued, JobStatus.Processing, JobStatus.Processing]
          [convert_audio p env.tempName] true
      else
        runTranscribe env p p
          (if env.convFailLeavesFile then setFile env.fileExists env.tempName true
           else env.fileExists)
          [JobStatus.Queued, JobStatus.Processing, JobStatus.Processing]
          [convert_audio p env.tempName] true
    else
      runTranscribe env p p env.fileExists
        [JobStatus.Queued, JobStatus.Processing] [] false
  else
    { outcome := .error ("Transcription failed: Audio file not found: " ++ p)
      fs := env.fileExists
      trace := [JobStatus.Queued, JobStatus.Failed]
      unlinkCalls := []
      convCalls := [] }

/-- The working path the engine is given (worker.py 57-72): the converted
file when conversion ran and succeeded, the original file otherwise. -/
def workingOf (env : Env) (p : String) : String :=
  if needs_conversion p && env.convertOk then env.tempName else p

/-- main.py 41-50: the accepted MIME types for uploads. -/
def SUPPORTED_MIME_TYPES : List String :=
  ["audio/mpeg", "audio/wav", "audio/x-wav", "audio/m4a", "audio/x-m4a",
   "audio/mp4", "audio/ogg", "audio/webm"]

/-- The body of the 202-style reply of the upload endpoint (main.py 52-54). -/
structure TranscriptionRequest where
  job_id : String
  status : String
deriving DecidableEq, Repr

/-- The reply of the status endpoint (main.py 56-63). -/
structure TranscriptionResponse where
  job_id : String
  status : String
  text : Option String := none
  language : Option String := none
  duration : Option Int := none
  language_probability : Option Int := none
  error : Option String := none
deriving DecidableEq, Repr

/-- An HTTPException raised by the endpoints. -/
structure HttpErr where
  status_code : Nat
  detail : String
deriving DecidableEq, Repr

/-- What the result backend stores for one task id: the Celery state
string plus the meta the status endpoint reads back. -/
structure TaskRecord where
  state : String
  result_text : Option String := none
  result_language : Option String := none
  result_duration : Option Int := none
  result_language_probability : Option Int := none
  error_info : Option String := none
deriving DecidableEq, Repr

/-- Environment of one call of the upload endpoint: the declared MIME
type and filename of the upload, the generated uuid, whether saving the
file raises, the task id Celery assigns, and the current result backend
(the worker progress at that instant). -/
structure UploadEnv where
  content_type : String
  filename : Option String
  temp_id : String
  saveOk : Bool
  taskId : String
  store : String → Option TaskRecord

/-- main.py 82: extension used for the temporary upload name; `.tmp` when
no filename was declared (an empty declared filename is falsy in Python). -/
def uploadExt (fn : Option String) : String :=
  match fn with
  | some s => if s == "" then ".tmp" else pyLower (pySuffix s)
  | none => ".tmp"

/-- The POST /transcribe handler (main.py 65-110): reject an unsupported
declared MIME type with 415; otherwise save the upload and enqueue the
task, replying with the Celery task id and the literal status "queued";
a failure while saving is a 500. -/
def transcribe_audio_endpoint (env : UploadEnv) :
    Except HttpErr TranscriptionRequest :=
  if !(SUPPORTED_MIME_TYPES.contains env.content_type) then
    .error { status_code := 415,
             detail := "Unsupported file type: " ++ env.content_type }
  else if !env.saveOk then
    .error { status_code := 500, detail := "Failed to process upload" }
  else
    .ok { job_id := env.taskId, status := "queued" }

/-- Modelled Celery result-backend read: `AsyncResult(job_id).state` is the
stored state when the backend holds a record for the id and the string
"PENDING" when it holds none — with the standard backends an unknown id is
indistinguishable from a not-yet-claimed job. -/
def asyncResultState (store : String → Option TaskRecord) (job_id : String) :
    String :=
  match store job_id with
  | some r => r.state
  | none => "PENDING"

/-- The GET /job/\x7bjob_id\x7d handler (main.py 112-164): map the Celery
task state onto the reply statuses; any state other than PENDING,
PROGRESS, SUCCESS and FAILURE lands in the final branch and is reported
as "unknown". -/
def get_job_status (store : String → Option TaskRecord) (job_id : String) :
    TranscriptionResponse :=
  let st := asyncResultState store job_id
  if st == "PENDING" then
    { job_id := job_id, status := "queued" }
  else if st == "PROGRESS" then
    { job_id := job_id, status := "processing" }
  else if st == "SUCCESS" then
    let r := (store job_id).getD { state := "SUCCESS" }
    { job_id := job_id, status := "completed",
      text := r.result_text, language := r.result_language,
      duration := r.result_duration,
      language_probability := r.result_language_probability }
  else if st == "FAILURE" then
    { job_id := job_id, status := "failed",
      error := some ((match store job_id with
        | some r => r.error_info
        | none => none).getD "Unknown error") }
  else
    { job_id := job_id, status := "unknown",
      error := some ("Unknown job state: " ++ st) }

/-- A fixed engine output used by the concrete runs below. -/
def outA : TranscribeOut :=
  { segments := ["hi", " there"], language := "en", duration := 7,
    language_probability := 1 }

/-- Concrete run: one input file `in.mp3`, the codec fails, the engine
accepts only the original file, deletions succeed. -/
def envA : Env :=
  { fileExists := fun s => s == "in.mp3"
    convertOk := false
    convFailLeavesFile := false
    transcribe := fun s => if s == "in.mp3" then .ok outA else .error "nofile"
    unlinkFails := fun _ => false
    tempName := "t0.wav" }

/-- Concrete run: one input file `in.mp3`, the codec succeeds, the engine
accepts only the converted file, deletions succeed. -/
def envB : Env :=
  { fileExists := fun s => s == "in.mp3"
    convertOk := true
    convFailLeavesFile := false
    transcribe := fun s => if s == "t0.wav" then .ok outA else .error "nofile"
    unlinkFails := fun _ => false
    tempName := "t0.wav" }

/-- Concrete run: the filesystem is empty, so every claim of a job finds
its input missing. -/
def envGone : Env :=
  { fileExists := fun _ => false
    convertOk := false
    convFailLeavesFile := false
    transcribe := fun _ => .error "nofile"
    unlinkFails := fun _ => false
    tempName := "t0.wav" }

/-- Concrete run: one input file `in.wav`, the engine succeeds, but every
deletion attempt fails. -/
def envStick : Env :=
  { fileExists := fun s => s == "in.wav"
    convertOk := false
    convFailLeavesFile := false
    transcribe := fun _ => .ok outA
    unlinkFails := fun _ => true
    tempName := "t0.wav" }

/-- Concrete run: one input file `in.mp3`, the codec succeeds, the engine
succeeds, and deletion fails exactly on the converted file `t0.wav`. -/
def envTempStick : Env :=
  { fileExists := fun s => s == "in.mp3"
    convertOk := true
    convFailLeavesFile := false
    transcribe := fun s => if s == "t0.wav" then .ok outA else .error "nofile"
    unlinkFails := fun s => s == "t0.wav"
    tempName := "t0.wav" }

/-- Concrete run: one input file `a.wav` (no conversion) whose single
emitted segment carries a leading space. -/
def envSeg : Env :=
  { fileExists := fun s => s == "a.wav"
    convertOk := false
    convFailLeavesFile := false
    transcribe := fun _ =>
      .ok { segments := [" hello"], language := "en", duration := 3,
            language_probability := 1 }
    unlinkFails := fun _ => false
    tempName := "t0.wav" }

/-- Concrete upload: a supported MIME type, a declared filename, the save
succeeds and Celery assigns the id `task-1`; the backend is empty. -/
def upEnvA : UploadEnv :=
  { content_type := "audio/mpeg"
    filename := some "song.mp3"
    temp_id := "u1"
    saveOk := true
    taskId := "task-1"
    store := fun _ => none }

/-- An empty result backend: no job was ever submitted. -/
def emptyStore : String → Option TaskRecord := fun _ => none

theorem setFile_ne (fs : String → Bool) (p : String) (b : Bool) (q : String)
    (h : q ≠ p) : setFile fs p b q = fs q := by
  simp [setFile, h]

theorem afterUnlink_ne (env : Env) (fs : String → Bool) (p q : String)
    (h : q ≠ p) : afterUnlink env fs p q = fs q := by
  unfold afterUnlink
  split
  · rfl
  · exact setFile_ne fs p false q h

theorem afterUnlink_self (env : Env) (fs : String → Bool) (p : String)
    (h : env.unlinkFails p = false) : afterUnlink env fs p p = false := by
  unfold afterUnlink
  rcases hf : fs p with _ | _
  · simp [h, hf]
  · simp [h, hf, setFile]

theorem setFile_self (fs : String → Bool) (p : String) (b : Bool) :
    setFile fs p b p = b := by
  simp [setFile]

theorem tempCleanupFs_ne (env : Env) (fs0 : String → Bool) (tm : Bool)
    (q : String) (hq : q ≠ env.tempName) :
    tempCleanupFs env fs0 tm q = fs0 q := by
  unfold tempCleanupFs
  split
  · exact afterUnlink_ne env fs0 env.tempName q hq
  · rfl

theorem tempCleanupCalls_count_ne (env : Env) (fs0 : String → Bool)
    (tm : Bool) (q : String) (hq : q ≠ env.tempName) :
    (tempCleanupCalls env fs0 tm).count q = 0 := by
  unfold tempCleanupCalls
  split
  · simp [List.count_cons, List.count_nil, Ne.symm hq]
  · simp

theorem runTranscribe_orig_cleanup (env : Env) (orig working : String)
    (fs0 : String → Bool) (tr : List JobStatus) (cc : List ConvCall)
    (tm : Bool) (hne : env.tempName ≠ orig) (hfs : fs0 orig = true) :
    (runTranscribe env orig working fs0 tr cc tm).unlinkCalls.count orig = 1 ∧
    (env.unlinkFails orig = false →
      (runTranscribe env orig working fs0 tr cc tm).fs orig = false) := by
  have hta : tempCleanupFs env fs0 tm orig = true := by
    rw [tempCleanupFs_ne env fs0 tm orig (Ne.symm hne)]
    exact hfs
  have htc : (tempCleanupCalls env fs0 tm).count orig = 0 :=
    tempCleanupCalls_count_ne env fs0 tm orig (Ne.symm hne)
  unfold runTranscribe
  cases htr : env.transcribe working
  · refine ⟨?_, fun hu => ?_⟩
    · dsimp only
      rw [hta]
      simp [List.count_append, List.count_cons, List.count_nil, htc]
    · exact afterUnlink_self env _ orig hu
  · refine ⟨?_, fun hu => ?_⟩
    · dsimp only
      simp [List.count_append, List.count_cons, List.count_nil, htc]
    · exact afterUnlink_self env _ orig hu

theorem runTranscribe_temp_cleanup (env : Env) (orig working : String)
    (fs0 : String → Bool) (tr : List JobStatus) (cc : List ConvCall)
    (hfs : fs0 env.tempName = true) :
    env.tempName ∈ (runTranscribe env orig working fs0 tr cc true).unlinkCalls ∧
    (env.unlinkFails env.tempName = false →
      (runTranscribe env orig working fs0 tr cc true).fs env.tempName = false) := by
  have hc : tempCleanupCalls env fs0 true = [env.tempName] := by
    unfold tempCleanupCalls
    simp [hfs]
  have hfs1 : env.unlinkFails env.tempName = false →
      tempCleanupFs env fs0 true env.tempName = false := by
    intro hu
    unfold tempCleanupFs
    simp only [hfs, Bool.and_self, if_true]
    exact afterUnlink_self env fs0 env.tempName hu
  have hfin : env.unlinkFails env.tempName = false →
      afterUnlink env (tempCleanupFs env fs0 true) orig env.tempName = false := by
    intro hu
    by_cases horig : env.tempName = orig
    · rw [horig] at hu ⊢
      exact afterUnlink_self env _ orig hu
    · rw [afterUnlink_ne env _ orig env.tempName horig]
      exact hfs1 hu
  unfold runTranscribe
  cases htr : env.transcribe working
  · refine ⟨?_, fun hu => hfin hu⟩
    dsimp only
    rw [hc]
    simp
  · refine ⟨?_, fun hu => hfin hu⟩
    dsimp only
    rw [hc]
    simp

theorem runTranscribe_convCalls (env : Env) (orig working : String)
    (fs0 : String → Bool) (tr : List JobStatus) (cc : List ConvCall)
    (tm : Bool) : (runTranscribe env orig working fs0 tr cc tm).convCalls = cc := by
  unfold runTranscribe
  cases env.transcribe working <;> rfl

theorem runTranscribe_trace_cases (env : Env) (orig working : String)
    (fs0 : String → Bool) (tr : List JobStatus) (cc : List ConvCall)
    (tm : Bool) :
    (runTranscribe env orig working fs0 tr cc tm).trace = tr ++ [JobStatus.Failed] ∨
    (runTranscribe env orig working fs0 tr cc tm).trace = tr ++ [JobStatus.Completed] := by
  unfold runTranscribe
  cases env.transcribe working
  · exact Or.inl rfl
  · exact Or.inr rfl

theorem transcribe_audio_trace_shape (env : Env) (p : String) :
    (transcribe_audio env p).trace = [JobStatus.Queued, JobStatus.Failed] ∨
    (transcribe_audio env p).trace =
      [JobStatus.Queued, JobStatus.Processing, JobStatus.Failed] ∨
    (transcribe_audio env p).trace =
      [JobStatus.Queued, JobStatus.Processing, JobStatus.Completed] ∨
    (transcribe_audio env p).trace =
      [JobStatus.Queued, JobStatus.Processing, JobStatus.Processing,
       JobStatus.Failed] ∨
    (transcribe_audio env p).trace =
      [JobStatus.Queued, JobStatus.Processing, JobStatus.Processing,
       JobStatus.Completed] := by
  unfold transcribe_audio
  cases h1 : env.fileExists p
  · simp [h1]
  · cases h2 : needs_conversion p
    · simp only [h1, h2, Bool.false_eq_true, if_true, if_false]
      rcases runTranscribe_trace_cases env p p env.fileExists
        [JobStatus.Queued, JobStatus.Processing] [] false with h | h <;>
        rw [h] <;> simp
    · cases h3 : env.convertOk
      · simp only [h1, h2, h3, Bool.false_eq_true, if_true, if_false]
        rcases runTranscribe_trace_cases env p p
          (if env.convFailLeavesFile then setFile env.fileExists env.tempName true
           else env.fileExists)
          [JobStatus.Queued, JobStatus.Processing, JobStatus.Processing]
          [convert_audio p env.tempName] true with h | h <;>
          rw [h] <;> simp
      · simp only [h1, h2, h3, Bool.false_eq_true, if_true, if_false]
        rcases runTranscribe_trace_cases env p env.tempName
          (setFile env.fileExists env.tempName true)
          [JobStatus.Queued, JobStatus.Processing, JobStatus.Processing]
          [convert_audio p env.tempName] true with h | h <;>
          rw [h] <;> simp

/-- Rank of a status in the forward order Queued, Processing, terminal. -/
def rank : JobStatus → Nat
  | .Queued => 0
  | .Processing => 1
  | .Completed => 2
  | .Failed => 2

/-- Whether a status is terminal. -/
def isTerminalStatus : JobStatus → Bool
  | .Completed => true
  | .Failed => true
  | _ => false

/-- Whether consecutive statuses of a trace only move forward in rank. -/
def forwardOk : List JobStatus → Bool
  | [] => true
  | [_] => true
  | a :: b :: rest => decide (rank a ≤ rank b) && forwardOk (b :: rest)

/-- Whether a terminal status occurs only at the very end of a trace. -/
def noEarlyTerminal : List JobStatus → Bool
  | [] => true
  | [_] => true
  | a :: rest => !isTerminalStatus a && noEarlyTerminal rest

/-- Claim C9: every run of the worker produces a status trace that only
moves forward through Queued, Processing, terminal, and a terminal status
is never followed by anything. -/
theorem status_moves_forward (env : Env) (p : String) :
    forwardOk (transcribe_audio env p).trace = true ∧
    noEarlyTerminal (transcribe_audio env p).trace = true := by
  rcases transcribe_audio_trace_shape env p with h | h | h | h | h <;>
    rw [h] <;> exact ⟨rfl, rfl⟩

/-- Claim C1: when conversion is needed and the codec fails, the worker
falls back to the original file; if the engine then succeeds on it, the
job completes with a result, so the conversion failure alone never drives
the job to Failed. -/
theorem conversion_failure_falls_back (env : Env) (p : String)
    (out : TranscribeOut)
    (hex : env.fileExists p = true)
    (hconv : needs_conversion p = true)
    (hfail : env.convertOk = false)
    (htr : env.transcribe p = .ok out) :
    (transcribe_audio env p).outcome = .ok
      { status := "completed", text := pyStrip (String.join out.segments),
        language := out.language, duration := out.duration,
        language_probability := out.language_probability } ∧
    (transcribe_audio env p).trace =
      [JobStatus.Queued, JobStatus.Processing, JobStatus.Processing,
       JobStatus.Completed] := by
  unfold transcribe_audio runTranscribe
  simp [hex, hconv, hfail, htr]

/-- Witness for C1: the concrete run envA converts nothing successfully,
falls back to in.mp3 and completes. -/
theorem conversion_failure_falls_back_w :
    envA.fileExists "in.mp3" = true ∧ needs_conversion "in.mp3" = true ∧
    envA.convertOk = false ∧ envA.transcribe "in.mp3" = .ok outA ∧
    ((transcribe_audio envA "in.mp3").outcome = .ok
      { status := "completed", text := pyStrip (String.join outA.segments),
        language := outA.language, duration := outA.duration,
        language_probability := outA.language_probability } ∧
     (transcribe_audio envA "in.mp3").trace =
      [JobStatus.Queued, JobStatus.Processing, JobStatus.Processing,
       JobStatus.Completed]) :=
  ⟨by decide, by decide, by decide, by rfl,
   conversion_failure_falls_back envA "in.mp3" outA (by decide) (by decide)
     (by decide) (by rfl)⟩

/-- Claim C6: a missing input at claim time yields an immediate Failed
with the file-not-found message, no deletion attempt, and an unchanged
filesystem. -/
theorem missing_input_immediate_failure (env : Env) (p : String)
    (h : env.fileExists p = false) :
    (transcribe_audio env p).outcome =
      .error ("Transcription failed: Audio file not found: " ++ p) ∧
    (transcribe_audio env p).trace = [JobStatus.Queued, JobStatus.Failed] ∧
    (transcribe_audio env p).unlinkCalls = [] ∧
    (transcribe_audio env p).fs = env.fileExists := by
  unfold transcribe_audio
  simp [h]

/-- Witness for C6: on the empty filesystem the claim of missing.mp3
fails immediately and deletes nothing. -/
theorem missing_input_immediate_failure_w :
    envGone.fileExists "missing.mp3" = false ∧
    ((transcribe_audio envGone "missing.mp3").outcome =
      .error ("Transcription failed: Audio file not found: " ++ "missing.mp3") ∧
     (transcribe_audio envGone "missing.mp3").trace =
      [JobStatus.Queued, JobStatus.Failed] ∧
     (transcribe_audio envGone "missing.mp3").unlinkCalls = [] ∧
     (transcribe_audio envGone "missing.mp3").fs = envGone.fileExists) :=
  ⟨by decide, missing_input_immediate_failure envGone "missing.mp3" (by decide)⟩

/-- Claim C7: the conversion decision is a function of the lower-cased
extension alone; with the input present, the codec is invoked exactly when
the extension is outside the canonical set, and every invocation asks for
16-bit PCM, mono, 16 kHz on the original path. -/
theorem conversion_decided_by_extension (env : Env) (p : String)
    (hex : env.fileExists p = true) :
    ((transcribe_audio env p).convCalls =
      if needs_conversion p then [convert_audio p env.tempName] else []) ∧
    (∀ c ∈ (transcribe_audio env p).convCalls,
      c.acodec = "pcm_s16le" ∧ c.ac = 1 ∧ c.ar = 16000 ∧ c.input = p) ∧
    (∀ q : String, pyLower (pySuffix q) = pyLower (pySuffix p) →
      needs_conversion q = needs_conversion p) := by
  have hcc : (transcribe_audio env p).convCalls =
      if needs_conversion p then [convert_audio p env.tempName] else [] := by
    unfold transcribe_audio
    cases h2 : needs_conversion p
    · simp [hex, h2, runTranscribe_convCalls]
    · cases h3 : env.convertOk <;> simp [hex, h2, h3, runTranscribe_convCalls]
  refine ⟨hcc, ?_, ?_⟩
  · intro c hc
    rw [hcc] at hc
    cases h2 : needs_conversion p
    · rw [h2] at hc
      simp at hc
    · rw [h2] at hc
      simp at hc
      rw [hc]
      exact ⟨rfl, rfl, rfl, rfl⟩
  · intro q hq
    unfold needs_conversion
    rw [hq]

/-- Witness for C7: the concrete run envA on in.mp3. -/
theorem conversion_decided_by_extension_w :
    envA.fileExists "in.mp3" = true ∧
    (((transcribe_audio envA "in.mp3").convCalls =
       if needs_conversion "in.mp3" then [convert_audio "in.mp3" envA.tempName]
       else []) ∧
     (∀ c ∈ (transcribe_audio envA "in.mp3").convCalls,
       c.acodec = "pcm_s16le" ∧ c.ac = 1 ∧ c.ar = 16000 ∧ c.input = "in.mp3") ∧
     (∀ q : String, pyLower (pySuffix q) = pyLower (pySuffix "in.mp3") →
       needs_conversion q = needs_conversion "in.mp3")) :=
  ⟨by decide, conversion_decided_by_extension envA "in.mp3" (by decide)⟩

/-- Claim C10: an accepted upload is always answered with the literal
status queued and the task id Celery assigned, whatever the result
backend (the worker progress) holds at that instant. -/
theorem accepted_upload_reports_queued (env : UploadEnv)
    (r : TranscriptionRequest)
    (h : transcribe_audio_endpoint env = .ok r) :
    r.status = "queued" ∧ r.job_id = env.taskId ∧
    (∀ st : String → Option TaskRecord,
      transcribe_audio_endpoint { env with store := st } = .ok r) := by
  unfold transcribe_audio_endpoint at h ⊢
  cases h1 : SUPPORTED_MIME_TYPES.contains env.content_type
  · rw [h1] at h
    simp at h
  · cases h2 : env.saveOk
    · rw [h1, h2] at h
      simp at h
    · rw [h1, h2] at h
      simp at h
      subst h
      refine ⟨rfl, rfl, fun st => ?_⟩
      have hm : env.content_type ∈ SUPPORTED_MIME_TYPES := by simpa using h1
      simp [hm, h2]

/-- Witness for C10: the concrete accepted upload upEnvA. -/
theorem accepted_upload_reports_queued_w :
    transcribe_audio_endpoint upEnvA = .ok { job_id := "task-1", status := "queued" } ∧
    (({ job_id := "task-1", status := "queued" } : TranscriptionRequest).status = "queued" ∧
     ({ job_id := "task-1", status := "queued" } : TranscriptionRequest).job_id = upEnvA.taskId ∧
     (∀ st : String → Option TaskRecord,
       transcribe_audio_endpoint { upEnvA with store := st } =
         .ok { job_id := "task-1", status := "queued" })) :=
  ⟨by rfl, accepted_upload_reports_queued upEnvA
    { job_id := "task-1", status := "queued" } (by rfl)⟩

/-- Claim C4 (code bug): querying a handle the backend has never seen
reports the status queued, not the distinct unknown signal — with the
standard Celery backends an unknown id reads back as PENDING, which the
handler maps to queued. -/
theorem unknown_handle_reports_queued :
    (get_job_status emptyStore "no-such-job").status = "queued" ∧
    (get_job_status emptyStore "no-such-job").status ≠ "unknown" :=
  ⟨rfl, by decide⟩

theorem runTranscribe_unlink_oracle (env : Env) (f : String → Bool)
    (orig working : String) (fs0 : String → Bool) (tr : List JobStatus)
    (cc : List ConvCall) (tm : Bool) :
    (runTranscribe { env with unlinkFails := f } orig working fs0 tr cc tm).outcome =
      (runTranscribe env orig working fs0 tr cc tm).outcome ∧
    (runTranscribe { env with unlinkFails := f } orig working fs0 tr cc tm).trace =
      (runTranscribe env orig working fs0 tr cc tm).trace := by
  unfold runTranscribe
  dsimp only
  cases env.transcribe working <;> exact ⟨rfl, rfl⟩

/-- Claim C8: neither the returned result nor the raised error nor the
status trace of a run depends on which deletion attempts fail: replacing
the deletion-failure oracle leaves outcome and trace unchanged. -/
theorem cleanup_failure_never_changes_outcome (env : Env) (p : String)
    (f : String → Bool) :
    (transcribe_audio { env with unlinkFails := f } p).outcome =
      (transcribe_audio env p).outcome ∧
    (transcribe_audio { env with unlinkFails := f } p).trace =
      (transcribe_audio env p).trace := by
  unfold transcribe_audio
  dsimp only
  cases h1 : env.fileExists p
  · simp [h1]
  · cases h2 : needs_conversion p
    · simp only [h1, h2, Bool.false_eq_true, if_true, if_false]
      exact runTranscribe_unlink_oracle env f p p env.fileExists
        [JobStatus.Queued, JobStatus.Processing] [] false
    · cases h3 : env.convertOk
      · simp only [h1, h2, h3, Bool.false_eq_true, if_true, if_false]
        exact runTranscribe_unlink_oracle env f p p
          (if env.convFailLeavesFile then setFile env.fileExists env.tempName true
           else env.fileExists)
          [JobStatus.Queued, JobStatus.Processing, JobStatus.Processing]
          [convert_audio p env.tempName] true
      · simp only [h1, h2, h3, Bool.false_eq_true, if_true, if_false]
        exact runTranscribe_unlink_oracle env f p env.tempName
          (setFile env.fileExists env.tempName true)
          [JobStatus.Queued, JobStatus.Processing, JobStatus.Processing]
          [convert_audio p env.tempName] true

/-- Counterexample to claim C2 as stated: on the empty filesystem the job
reaches Failed with zero deletion attempts on its input, and on envStick
(every deletion attempt fails) the job reaches Completed with the input
still on disk. -/
theorem input_deleted_once_cx :
    ((transcribe_audio envGone "gone.wav").trace =
       [JobStatus.Queued, JobStatus.Failed] ∧
     (transcribe_audio envGone "gone.wav").unlinkCalls.count "gone.wav" = 0) ∧
    ((transcribe_audio envStick "in.wav").trace =
       [JobStatus.Queued, JobStatus.Processing, JobStatus.Completed] ∧
     (transcribe_audio envStick "in.wav").fs "in.wav" = true) :=
  ⟨⟨rfl, rfl⟩, ⟨rfl, rfl⟩⟩

/-- Claim C2 (amended): with the fresh temp path distinct from the input,
deletion of the input is attempted exactly once when the input existed at
claim time and zero times when it was already missing; and whenever the
deletion attempt on the input succeeds, the input no longer exists after
the terminal state. -/
theorem input_deleted_on_terminal (env : Env) (p : String)
    (hne : env.tempName ≠ p) :
    ((transcribe_audio env p).unlinkCalls.count p =
      if env.fileExists p then 1 else 0) ∧
    (env.unlinkFails p = false → (transcribe_audio env p).fs p = false) := by
  cases h1 : env.fileExists p
  · unfold transcribe_audio
    simp [h1]
  · have h1t : env.fileExists p = true := h1
    cases h2 : needs_conversion p
    · unfold transcribe_audio
      simp only [h1, h2, Bool.false_eq_true, if_true, if_false]
      exact runTranscribe_orig_cleanup env p p env.fileExists
        [JobStatus.Queued, JobStatus.Processing] [] false hne h1t
    · cases h3 : env.convertOk
      · unfold transcribe_audio
        simp only [h1, h2, h3, Bool.false_eq_true, if_true, if_false]
        refine runTranscribe_orig_cleanup env p p
          (if env.convFailLeavesFile then setFile env.fileExists env.tempName true
           else env.fileExists)
          [JobStatus.Queued, JobStatus.Processing, JobStatus.Processing]
          [convert_audio p env.tempName] true hne ?_
        split
        · rw [setFile_ne env.fileExists env.tempName true p (Ne.symm hne)]
          exact h1t
        · exact h1t
      · unfold transcribe_audio
        simp only [h1, h2, h3, Bool.false_eq_true, if_true, if_false]
        refine runTranscribe_orig_cleanup env p env.tempName
          (setFile env.fileExists env.tempName true)
          [JobStatus.Queued, JobStatus.Processing, JobStatus.Processing]
          [convert_audio p env.tempName] true hne ?_
        rw [setFile_ne env.fileExists env.tempName true p (Ne.symm hne)]
        exact h1t

/-- Witness for C2 (amended) at the concrete run envA. -/
theorem input_deleted_on_terminal_w :
    envA.tempName ≠ "in.mp3" ∧
    (((transcribe_audio envA "in.mp3").unlinkCalls.count "in.mp3" =
       if envA.fileExists "in.mp3" then 1 else 0) ∧
     (envA.unlinkFails "in.mp3" = false →
       (transcribe_audio envA "in.mp3").fs "in.mp3" = false)) :=
  ⟨by decide, input_deleted_on_terminal envA "in.mp3" (by decide)⟩

/-- Counterexample to claim C3 as stated: on envTempStick the codec
creates the converted file, the job completes, the deletion attempt on
the converted file fails, and the converted file survives the run. -/
theorem temp_file_removed_cx :
    envTempStick.convertOk = true ∧ needs_conversion "in.mp3" = true ∧
    (transcribe_audio envTempStick "in.mp3").trace =
      [JobStatus.Queued, JobStatus.Processing, JobStatus.Processing,
       JobStatus.Completed] ∧
    envTempStick.tempName ∈ (transcribe_audio envTempStick "in.mp3").unlinkCalls ∧
    (transcribe_audio envTempStick "in.mp3").fs "t0.wav" = true :=
  ⟨rfl, rfl, rfl, by decide, rfl⟩

/-- Claim C3 (amended): whenever the converted temp file was actually
created (conversion ran and either succeeded or left a partial output),
its deletion is attempted after the transcription attempt on every path,
and whenever that attempt succeeds the converted file does not survive
the run. -/
theorem temp_file_removed (env : Env) (p : String)
    (hex : env.fileExists p = true)
    (hconv : needs_conversion p = true)
    (hmade : env.convertOk = true ∨ env.convFailLeavesFile = true) :
    env.tempName ∈ (transcribe_audio env p).unlinkCalls ∧
    (env.unlinkFails env.tempName = false →
      (transcribe_audio env p).fs env.tempName = false) := by
  cases h3 : env.convertOk
  · have hleaves : env.convFailLeavesFile = true := by
      rcases hmade with hm | hm
      · rw [h3] at hm
        exact absurd hm (by simp)
      · exact hm
    unfold transcribe_audio
    simp only [hex, hconv, h3, hleaves, Bool.false_eq_true, if_true, if_false]
    exact runTranscribe_temp_cleanup env p p
      (setFile env.fileExists env.tempName true)
      [JobStatus.Queued, JobStatus.Processing, JobStatus.Processing]
      [convert_audio p env.tempName]
      (setFile_self env.fileExists env.tempName true)
  · unfold transcribe_audio
    simp only [hex, hconv, h3, if_true]
    exact runTranscribe_temp_cleanup env p env.tempName
      (setFile env.fileExists env.tempName true)
      [JobStatus.Queued, JobStatus.Processing, JobStatus.Processing]
      [convert_audio p env.tempName]
      (setFile_self env.fileExists env.tempName true)

/-- Witness for C3 (amended) at the concrete run envB. -/
theorem temp_file_removed_w :
    envB.fileExists "in.mp3" = true ∧ needs_conversion "in.mp3" = true ∧
    (envB.convertOk = true ∨ envB.convFailLeavesFile = true) ∧
    (envB.tempName ∈ (transcribe_audio envB "in.mp3").unlinkCalls ∧
     (envB.unlinkFails envB.tempName = false →
       (transcribe_audio envB "in.mp3").fs envB.tempName = false)) :=
  ⟨by decide, by decide, Or.inl (by decide),
   temp_file_removed envB "in.mp3" (by decide) (by decide)
     (Or.inl (by decide))⟩

/-- Counterexample to claim C5 as stated: on envSeg the single emitted
segment is " hello", so the separator-free concatenation is " hello",
but the completed job reports the stripped text "hello". -/
theorem completed_text_cx :
    (transcribe_audio envSeg "a.wav").outcome.toOption.map JobResult.text =
      some "hello" ∧
    String.join [" hello"] = " hello" ∧ ("hello" : String) ≠ " hello" :=
  ⟨rfl, rfl, by decide⟩

/-- Claim C5 (amended): the reported text of a Completed job equals the
concatenation of the emitted segments in emitted order with no added
separators, stripped of leading and trailing whitespace. -/
theorem completed_text_stripped_concat (env : Env) (p : String)
    (out : TranscribeOut)
    (hex : env.fileExists p = true)
    (htr : env.transcribe (workingOf env p) = .ok out) :
    (transcribe_audio env p).outcome.toOption.map JobResult.text =
      some (pyStrip (String.join out.segments)) := by
  cases h2 : needs_conversion p
  · have hw : workingOf env p = p := by
      unfold workingOf
      simp [h2]
    rw [hw] at htr
    unfold transcribe_audio runTranscribe
    simp [hex, h2, htr, Except.toOption]
  · cases h3 : env.convertOk
    · have hw : workingOf env p = p := by
        unfold workingOf
        simp [h2, h3]
      rw [hw] at htr
      unfold transcribe_audio runTranscribe
      simp [hex, h2, h3, htr, Except.toOption]
    · have hw : workingOf env p = env.tempName := by
        unfold workingOf
        simp [h2, h3]
      rw [hw] at htr
      unfold transcribe_audio runTranscribe
      simp [hex, h2, h3, htr, Except.toOption]

/-- Witness for C5 (amended) at the concrete run envB. -/
theorem completed_text_stripped_concat_w :
    envB.fileExists "in.mp3" = true ∧
    envB.transcribe (workingOf envB "in.mp3") = .ok outA ∧
    (transcribe_audio envB "in.mp3").outcome.toOption.map JobResult.text =
      some (pyStrip (String.join outA.segments)) :=
  ⟨by decide, by rfl,
   completed_text_stripped_concat envB "in.mp3" outA (by decide) (by rfl)⟩
